import Mathlib

/-!
Verification development for the 4 Muluk cloud Telegram bot
(`bot_cloud.py`).  The Python source is shallowly embedded: the external
calendrical engine (`mayan_logic.py`, out of scope per the spec) is a
record of pure functions, dates are a concrete structure with Python's
`datetime.date` validity range, and every handler becomes a pure function
from its inputs to a description of its observable effects (text sent,
keyboard attached, message edited, process exit).
-/

namespace Muluk

/-! ## Calendar dates (embedding of `datetime.date`) -/

/-- Gregorian leap-year test, as used by `datetime`. -/
def isLeap (y : Nat) : Bool := (y % 4 == 0 && y % 100 != 0) || y % 400 == 0

/-- Number of days in a month of a given year (Gregorian). -/
def daysInMonth (y m : Nat) : Nat :=
  if m = 2 then (if isLeap y then 29 else 28)
  else if m = 4 ∨ m = 6 ∨ m = 9 ∨ m = 11 then 30
  else 31

/-- A calendar date, mirroring `datetime.date` fields. -/
structure Date where
  year : Nat
  month : Nat
  day : Nat
deriving DecidableEq, Repr

instance : Inhabited Date := ⟨⟨1, 1, 1⟩⟩

/-- The validity range `datetime.date` enforces (year 1..9999, real
calendar day). -/
def Date.Valid (d : Date) : Prop :=
  1 ≤ d.year ∧ d.year ≤ 9999 ∧ 1 ≤ d.month ∧ d.month ≤ 12 ∧
    1 ≤ d.day ∧ d.day ≤ daysInMonth d.year d.month

instance (d : Date) : Decidable d.Valid := by
  unfold Date.Valid; infer_instance

/-- Successor day with month/year rollover: the embedding of adding
`timedelta(days=1)` to a `datetime.date`. -/
def nextDay (d : Date) : Date :=
  if d.day < daysInMonth d.year d.month then ⟨d.year, d.month, d.day + 1⟩
  else if d.month < 12 then ⟨d.year, d.month + 1, 1⟩
  else ⟨d.year + 1, 1, 1⟩

/-- `d + timedelta(days = n)`. -/
def addDays (d : Date) : Nat → Date
  | 0 => d
  | n + 1 => addDays (nextDay d) n

/-! ## Digits, zero-padding and date strings

`date.isoformat()` renders `YYYY-MM-DD` with the year zero-padded to four
digits; `datetime.strptime(s, "%Y-%m-%d")` accepts exactly four digits of
year, one or two digits of month and day, requires the whole string to
match, and then validates the triple against the real calendar.  The
embedding works over `List Char` (ASCII digits; `String` in this Lean is
a wrapper around `List Char`). -/

/-- The ASCII digit character of a value `0..9`. -/
def digitChar (n : Nat) : Char := Char.ofNat (48 + n)

/-- ASCII digit test (`'0'..'9'`). -/
def isAsciiDigit (c : Char) : Bool := 48 ≤ c.toNat && c.toNat ≤ 57

/-- Two-digit zero-padded rendering of `n ≤ 99`. -/
def pad2Chars (n : Nat) : List Char := [digitChar (n / 10), digitChar (n % 10)]

/-- Four-digit zero-padded rendering of `n ≤ 9999`. -/
def pad4Chars (n : Nat) : List Char := pad2Chars (n / 100) ++ pad2Chars (n % 100)

/-- Numeric value of a digit string (fold, most significant first). -/
def digitsVal (l : List Char) : Nat := l.foldl (fun a c => a * 10 + (c.toNat - 48)) 0

/-- Split a character list at every occurrence of `sep` (like Python
`str.split(sep)` for a one-character separator). -/
def splitOnChar (sep : Char) : List Char → List (List Char)
  | [] => [[]]
  | c :: cs =>
    if c = sep then [] :: splitOnChar sep cs
    else
      match splitOnChar sep cs with
      | [] => [[c]]
      | p :: ps => (c :: p) :: ps

/-- Split at the first occurrence of `sep` only, failing when `sep` is
absent: the embedding of `s.split(sep, 1)` destructured into exactly two
names (absence raises `ValueError`). -/
def splitFirst (sep : Char) : List Char → Option (List Char × List Char)
  | [] => none
  | c :: cs =>
    if c = sep then some ([], cs)
    else (splitFirst sep cs).map (fun p => (c :: p.1, p.2))

/-- `date.isoformat()` character list: `YYYY-MM-DD`. -/
def isoChars (d : Date) : List Char :=
  pad4Chars d.year ++ '-' :: (pad2Chars d.month ++ '-' :: pad2Chars d.day)

/-- `date.isoformat()` as a string. -/
def Date.isoformat (d : Date) : String := ⟨isoChars d⟩

/-- The embedding of `datetime.strptime(s, "%Y-%m-%d").date()` on a
character list: `none` is Python's `ValueError`. -/
def parseDateChars (l : List Char) : Option Date :=
  match splitOnChar '-' l with
  | [ys, ms, ds] =>
    if ys.length = 4 && ys.all isAsciiDigit
        && 1 ≤ ms.length && ms.length ≤ 2 && ms.all isAsciiDigit
        && 1 ≤ ds.length && ds.length ≤ 2 && ds.all isAsciiDigit then
      let y := digitsVal ys
      let m := digitsVal ms
      let dd := digitsVal ds
      if 1 ≤ y && 1 ≤ m && m ≤ 12 && 1 ≤ dd && dd ≤ daysInMonth y m then
        some ⟨y, m, dd⟩
      else none
    else none
  | _ => none

/-- `datetime.strptime(s, "%Y-%m-%d").date()` on a string. -/
def parsePyDate (s : String) : Option Date := parseDateChars s.toList

/-- `d.strftime('%d.%m.%Y')`, the day-report date rendering. -/
def fmtDMY (d : Date) : String :=
  ⟨pad2Chars d.day ++ '.' :: (pad2Chars d.month ++ '.' :: pad4Chars d.year)⟩

/-- `d.strftime('%d.%m')`, the week-entry date rendering. -/
def fmtDM (d : Date) : String := ⟨pad2Chars d.day ++ '.' :: pad2Chars d.month⟩

/-! ## The external calendrical engine (`mayan_logic.py`)

The spec places the engine out of scope with the contract that every
function is pure and total over valid dates, so it is embedded as a
record of pure functions with the exact shapes `bot_cloud.py` consumes
(dictionary keys become structure fields). -/

/-- Result of `mayan_from_gregorian`: the keys `bot_cloud.py` reads. -/
structure MayanInfo where
  tz_number : Nat
  tz_name : String
  haab_day : Nat
  haab_month_name : String
deriving DecidableEq, Repr

/-- Result of `get_moon_phase`: the keys `bot_cloud.py` reads. -/
structure MoonInfo where
  phase_code : String
  phase_name : String
  phase_emoji : String
deriving DecidableEq, Repr

/-- Result of `classify_day`. -/
structure ClassInfo where
  label : String
  description : String
  trading_signal_label : String
  trading_signal_description : String
deriving DecidableEq, Repr

/-- Result of `get_crowd_state`. -/
structure CrowdInfo where
  code : String
  label : String
  description : String
deriving DecidableEq, Repr

/-- Result of `get_bot_mode`. -/
structure BotModeInfo where
  code : String
  label : String
  description : String
deriving DecidableEq, Repr

/-- Result of `get_biorhythms`: four percentages, rendered with Python's
integer formatting. -/
structure BiorInfo where
  physical : Int
  emotional : Int
  intellectual : Int
  spiritual : Int
deriving DecidableEq, Repr

/-- The engine record: one field per `mayan_logic` function imported and
called by `bot_cloud.py`, with the argument shapes of the call sites.
Values the bot never inspects (deep profile, training, schedule,
nutrition, sumerian profile) are carried as opaque strings. -/
structure Engine where
  mayan_from_gregorian : Date → MayanInfo
  get_moon_phase : Date → MoonInfo
  classify_day : Nat → String → String → ClassInfo
  get_deep_profile : Nat → String → String → String
  get_crowd_state : Nat → String → String → CrowdInfo
  get_bot_mode : String → String → BotModeInfo
  get_biorhythms : Date → Date → BiorInfo
  get_training_recommendation : BiorInfo → ClassInfo → String → String
  get_daily_schedule : Date → Date → ClassInfo → String → BiorInfo → String
  get_nutrition_profile : BiorInfo → ClassInfo → String → String
  get_sumerian_profile : Date → String

/-- `BIRTH_DATE = date(1972, 11, 10)`, the process-wide constant. -/
def BIRTH_DATE : Date := ⟨1972, 11, 10⟩

/-! ## `calc_day`: the profile aggregation -/

/-- The `tzolkin` sub-dictionary of the profile. -/
structure TzolkinPair where
  number : Nat
  name : String
deriving DecidableEq, Repr

/-- The `haab` sub-dictionary of the profile. -/
structure HaabPair where
  day : Nat
  month : String
deriving DecidableEq, Repr

/-- The dictionary returned by `calc_day` (`class` is a Lean keyword, so
that key is the field `day_class`). -/
structure DayProfile where
  date : Date
  tzolkin : TzolkinPair
  haab : HaabPair
  moon : MoonInfo
  day_class : ClassInfo
  deep : String
  crowd : CrowdInfo
  bot_mode : BotModeInfo
  bior : BiorInfo
  training : String
  schedule : String
  nutrition : String
  sumerian : String
deriving DecidableEq, Repr

instance : Inhabited DayProfile :=
  ⟨⟨default, ⟨0, ""⟩, ⟨0, ""⟩, ⟨"", "", ""⟩, ⟨"", "", "", ""⟩, "",
    ⟨"", "", ""⟩, ⟨"", "", ""⟩, ⟨0, 0, 0, 0⟩, "", "", "", ""⟩⟩

/-- `calc_day(d)`: the full-profile aggregation, call for call in the
source's order and with the source's arguments. -/
def calc_day (e : Engine) (d : Date) : DayProfile :=
  let info := e.mayan_from_gregorian d
  let moon := e.get_moon_phase d
  let cls := e.classify_day info.tz_number info.tz_name moon.phase_code
  let deep := e.get_deep_profile info.tz_number info.tz_name moon.phase_code
  let crowd_state := e.get_crowd_state info.tz_number info.tz_name moon.phase_code
  let bot_mode := e.get_bot_mode cls.trading_signal_label crowd_state.code
  let bior := e.get_biorhythms BIRTH_DATE d
  let training := e.get_training_recommendation bior cls moon.phase_code
  let schedule := e.get_daily_schedule BIRTH_DATE d cls moon.phase_code bior
  let nutrition := e.get_nutrition_profile bior cls moon.phase_code
  let sumer := e.get_sumerian_profile d
  { date := d
    tzolkin := ⟨info.tz_number, info.tz_name⟩
    haab := ⟨info.haab_day, info.haab_month_name⟩
    moon := moon
    day_class := cls
    deep := deep
    crowd := crowd_state
    bot_mode := bot_mode
    bior := bior
    training := training
    schedule := schedule
    nutrition := nutrition
    sumerian := sumer }

/-! ## Report formatting -/

/-- `"\n".join(lines)`. -/
def joinLines (lines : List String) : String := String.intercalate "\n" lines

/-- The `lines` list built by `format_day_text`, append for append. -/
def format_day_lines (p : DayProfile) : List String :=
  [ "📅 *День* " ++ fmtDMY p.date
  , "Майя: *" ++ toString p.tzolkin.number ++ " " ++ p.tzolkin.name ++ "*"
  , "Луна: " ++ p.moon.phase_name ++ " (" ++ p.moon.phase_emoji ++ ")"
  , ""
  , "Класс дня: *" ++ p.day_class.label ++ "*"
  , p.day_class.description
  , ""
  , "Сигнал трейдинга: *" ++ p.day_class.trading_signal_label ++ "*"
  , p.day_class.trading_signal_description
  , ""
  , "Толпа: *" ++ p.crowd.label ++ "* (`" ++ p.crowd.code ++ "`)"
  , p.crowd.description
  , ""
  , "Режим бота: *" ++ p.bot_mode.label ++ "* (`" ++ p.bot_mode.code ++ "`)"
  , ""
  , "Биоритмы:"
  , "• Физический: " ++ toString p.bior.physical ++ "%"
  , "• Эмоциональный: " ++ toString p.bior.emotional ++ "%"
  , "• Интеллектуальный: " ++ toString p.bior.intellectual ++ "%"
  , "• Духовный: " ++ toString p.bior.spiritual ++ "%" ]

/-- `format_day_text(day_data)`. -/
def format_day_text (p : DayProfile) : String := joinLines (format_day_lines p)

/-- The head of the day report: title line, calendrical (Maya) line,
lunar line. -/
def dayHeadBlock (p : DayProfile) : List String :=
  [ "📅 *День* " ++ fmtDMY p.date
  , "Майя: *" ++ toString p.tzolkin.number ++ " " ++ p.tzolkin.name ++ "*"
  , "Луна: " ++ p.moon.phase_name ++ " (" ++ p.moon.phase_emoji ++ ")" ]

/-- The classification block: the day class and its derived trading
signal (the spec's classification field carries both). -/
def classificationBlock (p : DayProfile) : List String :=
  [ "Класс дня: *" ++ p.day_class.label ++ "*"
  , p.day_class.description
  , ""
  , "Сигнал трейдинга: *" ++ p.day_class.trading_signal_label ++ "*"
  , p.day_class.trading_signal_description ]

/-- The crowd block of the day report. -/
def crowdBlock (p : DayProfile) : List String :=
  [ "Толпа: *" ++ p.crowd.label ++ "* (`" ++ p.crowd.code ++ "`)"
  , p.crowd.description ]

/-- The bot-mode block of the day report. -/
def botModeBlock (p : DayProfile) : List String :=
  [ "Режим бота: *" ++ p.bot_mode.label ++ "* (`" ++ p.bot_mode.code ++ "`)" ]

/-- The biorhythm summary block of the day report. -/
def biorhythmBlock (p : DayProfile) : List String :=
  [ "Биоритмы:"
  , "• Физический: " ++ toString p.bior.physical ++ "%"
  , "• Эмоциональный: " ++ toString p.bior.emotional ++ "%"
  , "• Интеллектуальный: " ++ toString p.bior.intellectual ++ "%"
  , "• Духовный: " ++ toString p.bior.spiritual ++ "%" ]

/-- The training block the spec's `Full` detail appends. -/
def trainingBlock (p : DayProfile) : List String := [p.training]

/-- The title line of the week view. -/
def weekTitle : String := "📈 *Неделя 4 Muluk*"

/-- The week header line `c DD.MM.YYYY по DD.MM.YYYY` built from the
first and last profiles. -/
def weekHeader (first last : DayProfile) : String :=
  "c " ++ fmtDMY first.date ++ " по " ++ fmtDMY last.date

/-- The three lines the week loop appends per profile: summary line,
biorhythm line, blank. -/
def weekEntry (p : DayProfile) : List String :=
  [ "*" ++ fmtDM p.date ++ "* — " ++ toString p.tzolkin.number ++ " "
      ++ p.tzolkin.name ++ ", " ++ p.day_class.label
      ++ ", бот: `" ++ p.bot_mode.code ++ "`"
  , "  Физ: " ++ toString p.bior.physical ++ "%, Эмоц: "
      ++ toString p.bior.emotional ++ "%"
  , "" ]

/-- The `lines` list built by `format_week_text`: title; then, when the
list is non-empty, the header from `days[0]` and `days[-1]`, a blank,
and the per-day loop. -/
def format_week_lines (days : List DayProfile) : List String :=
  weekTitle ::
    (if days.isEmpty then []
     else weekHeader days.head! days.getLast! :: "" :: days.flatMap weekEntry)

/-- `format_week_text(days)`. -/
def format_week_text (days : List DayProfile) : String :=
  joinLines (format_week_lines days)

/-! ## Keyboards and command handlers -/

/-- An inline keyboard: rows of `(label, callback_data)` buttons. -/
abbrev Keyboard := List (List (String × String))

/-- `build_day_keyboard(d)`. -/
def build_day_keyboard (d : Date) : Keyboard :=
  let iso := d.isoformat
  [ [ ("Показать толпу", "crowd:" ++ iso), ("Режим бота", "mode:" ++ iso) ]
  , [ ("Неделя от этого дня", "week:" ++ iso) ] ]

/-- `parse_date_arg(args)`: `None` on no argument or unparseable first
argument. -/
def parse_date_arg (args : List String) : Option Date :=
  match args with
  | [] => none
  | a :: _ => parsePyDate a

/-- Observable outcome of the `/day` command.  The spec's vocabulary has
a `ParseError` outcome carrying the offending argument text; the
constructor is present so that claims about it can be stated, though the
source never produces it. -/
inductive DayCmdOutcome where
  | parseError (offending : String)
  | reply (d : Date) (text : String) (kb : Keyboard)
deriving DecidableEq

/-- `day_cmd`: resolve the date (`parse_date_arg(args) or date.today()`),
aggregate, format, attach the keyboard, reply. -/
def day_cmd (e : Engine) (args : List String) (today : Date) : DayCmdOutcome :=
  let d := (parse_date_arg args).getD today
  .reply d (format_day_text (calc_day e d)) (build_day_keyboard d)

/-- The 7-day profile list built by `week_cmd` and the `week` callback:
`calc_day(start + timedelta(days=i))` for `i in range(7)`. -/
def weekDays (e : Engine) (start : Date) : List DayProfile :=
  (List.range 7).map (fun i => calc_day e (addDays start i))

/-- `week_cmd`: resolve the start date the same way, then reply with the
formatted 7-day text. -/
def week_cmd (e : Engine) (args : List String) (today : Date) : String :=
  let start := (parse_date_arg args).getD today
  format_week_text (weekDays e start)

/-! ## The callback handler -/

/-- Observable outcome of `callback_handler` for one callback query:
whether `query.answer()` ran, and the `edit_message_text` payload (text
and optional reply markup) if any edit was issued. -/
structure CallbackResult where
  answered : Bool
  edit : Option (String × Option Keyboard)
deriving DecidableEq

/-- The date a callback branch uses: `strptime(payload)` with fallback
`date.today()` on `ValueError`. -/
def callbackDate (payload : String) (today : Date) : Date :=
  (parsePyDate payload).getD today

/-- The focused crowd view text of the `crowd` callback branch. -/
def crowdText (d : Date) (crowd : CrowdInfo) : String :=
  "🧠 *Толпа " ++ fmtDMY d ++ "*\n\n"
    ++ "Состояние: *" ++ crowd.label ++ "* (`" ++ crowd.code ++ "`)\n"
    ++ crowd.description

/-- The focused mode view text of the `mode` callback branch. -/
def modeText (d : Date) (cls : ClassInfo) (crowd : CrowdInfo)
    (bot_mode : BotModeInfo) : String :=
  "🎛 *Режим бота " ++ fmtDMY d ++ "*\n\n"
    ++ "Сигнал: *" ++ cls.trading_signal_label ++ "*\n"
    ++ cls.trading_signal_description ++ "\n\n"
    ++ "Толпа: *" ++ crowd.label ++ "* (`" ++ crowd.code ++ "`)\n\n"
    ++ "Режим бота: *" ++ bot_mode.label ++ "* (`" ++ bot_mode.code ++ "`)\n"
    ++ bot_mode.description

/-- `callback_handler` on a present query: `query.answer()` always runs
first; `data.split(":", 1)` failing (no colon) returns with no edit;
then the action dispatch, branch for branch from the source; an unknown
action falls through every branch with no edit. -/
def callback_handler (e : Engine) (data : String) (today : Date) : CallbackResult :=
  match splitFirst ':' data.toList with
  | none => ⟨true, none⟩
  | some (ac, pc) =>
    let action : String := ⟨ac⟩
    let payload : String := ⟨pc⟩
    if action = "day" then
      let d := callbackDate payload today
      ⟨true, some (format_day_text (calc_day e d), some (build_day_keyboard d))⟩
    else if action = "week" then
      let start := callbackDate payload today
      ⟨true, some (format_week_text (weekDays e start), none)⟩
    else if action = "crowd" then
      let d := callbackDate payload today
      let info := e.mayan_from_gregorian d
      let moon := e.get_moon_phase d
      let crowd := e.get_crowd_state info.tz_number info.tz_name moon.phase_code
      ⟨true, some (crowdText d crowd, none)⟩
    else if action = "mode" then
      let d := callbackDate payload today
      let info := e.mayan_from_gregorian d
      let moon := e.get_moon_phase d
      let cls := e.classify_day info.tz_number info.tz_name moon.phase_code
      let crowd := e.get_crowd_state info.tz_number info.tz_name moon.phase_code
      let bot_mode := e.get_bot_mode cls.trading_signal_label crowd.code
      ⟨true, some (modeText d cls crowd bot_mode, none)⟩
    else ⟨true, none⟩

/-- Decoding a callback token: the `(action, payload)` pair from
splitting the data at the first `':'`, as strings. -/
def decodeCallbackData (data : String) : Option (String × String) :=
  (splitFirst ':' data.toList).map (fun p => (⟨p.1⟩, ⟨p.2⟩))

/-! ## Startup (`main`) -/

/-- Python `str.strip()` restricted to ASCII whitespace. -/
def pyStrip (s : String) : String :=
  ⟨(s.toList.dropWhile Char.isWhitespace).reverse.dropWhile Char.isWhitespace |>.reverse⟩

/-- Observable outcome of `main()` up to serving traffic: what was
printed, whether the application was built, and the process exit code
(`main` returns normally in both branches, so the interpreter exits 0). -/
structure MainOutcome where
  message : Option String
  builtApp : Bool
  exitCode : Nat
deriving DecidableEq

/-- `main()`: the token guard and the two print/return paths. -/
def main_startup (bot_token : String) : MainOutcome :=
  if bot_token = "" ∨ pyStrip bot_token = "" then
    { message := some "❌ Не задан BOT_TOKEN. Укажи токен бота в переменной окружения BOT_TOKEN."
      builtApp := false
      exitCode := 0 }
  else
    { message := some "✅ Облачный бот 4 Muluk запущен. (локально: Ctrl+C для остановки)"
      builtApp := true
      exitCode := 0 }

/-! ## Aggregation under a fallible engine

Python engine calls can raise; a raise anywhere inside `calc_day` aborts
the aggregation and propagates the exception unchanged (there is no
try/except in `calc_day`).  This variant embeds that: every engine
function returns `Except String`, a raised exception is `.error cause`,
and `calc_day_exc` is the same call chain with propagation. -/

/-- The engine record with every collaborator fallible. -/
structure FEngine where
  mayan_from_gregorian : Date → Except String MayanInfo
  get_moon_phase : Date → Except String MoonInfo
  classify_day : Nat → String → String → Except String ClassInfo
  get_deep_profile : Nat → String → String → Except String String
  get_crowd_state : Nat → String → String → Except String CrowdInfo
  get_bot_mode : String → String → Except String BotModeInfo
  get_biorhythms : Date → Date → Except String BiorInfo
  get_training_recommendation : BiorInfo → ClassInfo → String → Except String String
  get_daily_schedule : Date → Date → ClassInfo → String → BiorInfo → Except String String
  get_nutrition_profile : BiorInfo → ClassInfo → String → Except String String
  get_sumerian_profile : Date → Except String String

/-- `calc_day` under the fallible engine: the first raise aborts the
whole aggregation with that exception; only when all eleven calls
succeed is the full dictionary returned. -/
def calc_day_exc (fe : FEngine) (d : Date) : Except String DayProfile :=
  match fe.mayan_from_gregorian d with
  | .error c => .error c
  | .ok info =>
  match fe.get_moon_phase d with
  | .error c => .error c
  | .ok moon =>
  match fe.classify_day info.tz_number info.tz_name moon.phase_code with
  | .error c => .error c
  | .ok cls =>
  match fe.get_deep_profile info.tz_number info.tz_name moon.phase_code with
  | .error c => .error c
  | .ok deep =>
  match fe.get_crowd_state info.tz_number info.tz_name moon.phase_code with
  | .error c => .error c
  | .ok crowd_state =>
  match fe.get_bot_mode cls.trading_signal_label crowd_state.code with
  | .error c => .error c
  | .ok bot_mode =>
  match fe.get_biorhythms BIRTH_DATE d with
  | .error c => .error c
  | .ok bior =>
  match fe.get_training_recommendation bior cls moon.phase_code with
  | .error c => .error c
  | .ok training =>
  match fe.get_daily_schedule BIRTH_DATE d cls moon.phase_code bior with
  | .error c => .error c
  | .ok schedule =>
  match fe.get_nutrition_profile bior cls moon.phase_code with
  | .error c => .error c
  | .ok nutrition =>
  match fe.get_sumerian_profile d with
  | .error c => .error c
  | .ok sumer =>
    .ok { date := d
          tzolkin := ⟨info.tz_number, info.tz_name⟩
          haab := ⟨info.haab_day, info.haab_month_name⟩
          moon := moon
          day_class := cls
          deep := deep
          crowd := crowd_state
          bot_mode := bot_mode
          bior := bior
          training := training
          schedule := schedule
          nutrition := nutrition
          sumerian := sumer }

/-- Whether some sub-calculation of the aggregation fails, enumerated in
the source's call order at the source's arguments. -/
def anySubcalcFails (fe : FEngine) (d : Date) : Bool :=
  match fe.mayan_from_gregorian d with
  | .error _ => true
  | .ok info =>
  match fe.get_moon_phase d with
  | .error _ => true
  | .ok moon =>
  match fe.classify_day info.tz_number info.tz_name moon.phase_code with
  | .error _ => true
  | .ok cls =>
  match fe.get_deep_profile info.tz_number info.tz_name moon.phase_code with
  | .error _ => true
  | .ok _ =>
  match fe.get_crowd_state info.tz_number info.tz_name moon.phase_code with
  | .error _ => true
  | .ok crowd_state =>
  match fe.get_bot_mode cls.trading_signal_label crowd_state.code with
  | .error _ => true
  | .ok _ =>
  match fe.get_biorhythms BIRTH_DATE d with
  | .error _ => true
  | .ok bior =>
  match fe.get_training_recommendation bior cls moon.phase_code with
  | .error _ => true
  | .ok _ =>
  match fe.get_daily_schedule BIRTH_DATE d cls moon.phase_code bior with
  | .error _ => true
  | .ok _ =>
  match fe.get_nutrition_profile bior cls moon.phase_code with
  | .error _ => true
  | .ok _ =>
  match fe.get_sumerian_profile d with
  | .error _ => true
  | .ok _ => false

/-! ## Spec-modelled parts: Full-detail formatting and the scheduler

`bot_cloud.py` (the variant under `src/`) has no Brief/Full distinction
and no daily scheduler; it only reads `TELEGRAM_CHAT_ID` (line 60).  The
spec says the repository's other variants carry them. -/

/-- Modelled from the spec: the `Full` detail level of `formatDay` —
missing from `src/` (it lives in the repository's scheduler variant) —
"for `Full` — training block": the day document followed by a blank
separator and the training block. -/
def format_day_full_lines (p : DayProfile) : List String :=
  format_day_lines p ++ [""] ++ [p.training]

/-- Modelled from the spec: the `Full`-detail day document as text. -/
def format_day_full_text (p : DayProfile) : String :=
  joinLines (format_day_full_lines p)

/-- One scheduled dispatch: destination chat identifier and message text. -/
structure Dispatch where
  chat : String
  text : String
deriving DecidableEq, Repr

/-- Modelled from the spec: the ReportScheduler — missing from `src/`
(only `TELEGRAM_CHAT_ID` is read there).  A day is the minutes
`0..1439`; at each minute equal to the configured fire minute the
scheduler transitions `Idle → Firing`, computes `aggregate(today)`,
formats `Full` detail, dispatches to the destination, and returns to
`Idle`; with no destination configured every cycle is a no-op. -/
def scheduler_day_dispatches (e : Engine) (chatId : String) (fireMinute : Nat)
    (today : Date) : List Dispatch :=
  if chatId = "" then []
  else
    ((List.range 1440).filter (fun t => t = fireMinute)).map
      (fun _ => ⟨chatId, format_day_full_text (calc_day e today)⟩)

/-! ## A concrete engine stub (for witnesses and counterexamples) -/

/-- A concrete total engine assigning simple distinct values, used to
evaluate the handlers at concrete inputs. -/
def stubEngine : Engine where
  mayan_from_gregorian := fun d => ⟨d.day % 13 + 1, "Muluk", d.day % 19, "Pop"⟩
  get_moon_phase := fun _ => ⟨"new", "Новолуние", "🌑"⟩
  classify_day := fun n name pc => ⟨"Класс-" ++ toString n, "описание " ++ name, "BUY", "сигнал " ++ pc⟩
  get_deep_profile := fun _ _ _ => "deep"
  get_crowd_state := fun n _ _ => ⟨"C" ++ toString n, "Толпа", "настроение"⟩
  get_bot_mode := fun sig code => ⟨sig ++ "/" ++ code, "Режим", "режим"⟩
  get_biorhythms := fun _ d => ⟨d.day, d.month, 50, 60⟩
  get_training_recommendation := fun _ _ _ => "тренировка"
  get_daily_schedule := fun _ _ _ _ _ => "расписание"
  get_nutrition_profile := fun _ _ _ => "питание"
  get_sumerian_profile := fun _ => "шумер"

/-- A concrete fallible engine that raises on the biorhythm call only
(the Scenario D stub). -/
def bioFailEngine : FEngine where
  mayan_from_gregorian := fun d => .ok ⟨d.day % 13 + 1, "Muluk", d.day % 19, "Pop"⟩
  get_moon_phase := fun _ => .ok ⟨"new", "Новолуние", "🌑"⟩
  classify_day := fun n name pc => .ok ⟨"Класс-" ++ toString n, "описание " ++ name, "BUY", "сигнал " ++ pc⟩
  get_deep_profile := fun _ _ _ => .ok "deep"
  get_crowd_state := fun n _ _ => .ok ⟨"C" ++ toString n, "Толпа", "настроение"⟩
  get_bot_mode := fun sig code => .ok ⟨sig ++ "/" ++ code, "Режим", "режим"⟩
  get_biorhythms := fun _ _ => .error "bio fail"
  get_training_recommendation := fun _ _ _ => .ok "тренировка"
  get_daily_schedule := fun _ _ _ _ _ => .ok "расписание"
  get_nutrition_profile := fun _ _ _ => .ok "питание"
  get_sumerian_profile := fun _ => .ok "шумер"

/-! ## Helper lemmas: digits, padding, splitting, the parse/format
roundtrip -/

theorem digitChar_toNat {k : Nat} (h : k ≤ 9) : (digitChar k).toNat = 48 + k := by
  interval_cases k <;> decide

theorem isAsciiDigit_digitChar {k : Nat} (h : k ≤ 9) :
    isAsciiDigit (digitChar k) = true := by
  interval_cases k <;> decide

theorem ne_dash_of_digit {c : Char} (h : isAsciiDigit c = true) : c ≠ '-' := by
  intro hc
  subst hc
  exact absurd h (by decide)

theorem pad2Chars_all_digit {n : Nat} (h : n ≤ 99) :
    (pad2Chars n).all isAsciiDigit = true := by
  have h1 : n / 10 ≤ 9 := by omega
  have h2 : n % 10 ≤ 9 := by omega
  simp [pad2Chars, isAsciiDigit_digitChar h1, isAsciiDigit_digitChar h2]

theorem pad4Chars_all_digit {n : Nat} (h : n ≤ 9999) :
    (pad4Chars n).all isAsciiDigit = true := by
  have h1 : n / 100 ≤ 99 := by omega
  have h2 : n % 100 ≤ 99 := by omega
  simp [pad4Chars, List.all_append, pad2Chars_all_digit h1, pad2Chars_all_digit h2]

theorem foldl_pad2 (a : Nat) {n : Nat} (h : n ≤ 99) :
    (pad2Chars n).foldl (fun x c => x * 10 + (c.toNat - 48)) a = a * 100 + n := by
  have h1 : n / 10 ≤ 9 := by omega
  have h2 : n % 10 ≤ 9 := by omega
  simp [pad2Chars, digitChar_toNat h1, digitChar_toNat h2]
  omega

theorem pad2Chars_length (n : Nat) : (pad2Chars n).length = 2 := rfl

theorem pad4Chars_length (n : Nat) : (pad4Chars n).length = 4 := rfl

theorem digitsVal_pad2 {n : Nat} (h : n ≤ 99) : digitsVal (pad2Chars n) = n := by
  unfold digitsVal
  rw [foldl_pad2 0 h]
  omega

theorem digitsVal_pad4 {n : Nat} (h : n ≤ 9999) : digitsVal (pad4Chars n) = n := by
  have h1 : n / 100 ≤ 99 := by omega
  have h2 : n % 100 ≤ 99 := by omega
  unfold digitsVal pad4Chars
  rw [List.foldl_append, foldl_pad2 0 h1, foldl_pad2 _ h2]
  omega

theorem splitOnChar_no_sep {sep : Char} {l : List Char} (h : ∀ c ∈ l, c ≠ sep) :
    splitOnChar sep l = [l] := by
  induction l with
  | nil => rfl
  | cons c cs ih =>
    have hc : c ≠ sep := h c (by simp)
    have h' : ∀ x ∈ cs, x ≠ sep := fun x hx => h x (by simp [hx])
    simp [splitOnChar, hc, ih h']

theorem splitOnChar_append {sep : Char} (rest : List Char) :
    ∀ a : List Char, (∀ c ∈ a, c ≠ sep) →
      splitOnChar sep (a ++ sep :: rest) = a :: splitOnChar sep rest := by
  intro a
  induction a with
  | nil => intro _; simp [splitOnChar]
  | cons c cs ih =>
    intro h
    have hc : c ≠ sep := h c (by simp)
    have h' : ∀ x ∈ cs, x ≠ sep := fun x hx => h x (by simp [hx])
    simp [splitOnChar, hc, ih h']

theorem splitFirst_append {sep : Char} (p : List Char) :
    ∀ a : List Char, (∀ c ∈ a, c ≠ sep) →
      splitFirst sep (a ++ sep :: p) = some (a, p) := by
  intro a
  induction a with
  | nil => intro _; simp [splitFirst]
  | cons c cs ih =>
    intro h
    have hc : c ≠ sep := h c (by simp)
    have h' : ∀ x ∈ cs, x ≠ sep := fun x hx => h x (by simp [hx])
    simp [splitFirst, hc, ih h']

theorem daysInMonth_le (y m : Nat) : daysInMonth y m ≤ 31 := by
  unfold daysInMonth
  split_ifs <;> omega

/-- The roundtrip: `strptime(d.isoformat(), "%Y-%m-%d")` recovers `d` for
every date in `datetime.date`'s range. -/
theorem parsePyDate_isoformat {d : Date} (h : d.Valid) :
    parsePyDate d.isoformat = some d := by
  obtain ⟨hy1, hy2, hm1, hm2, hd1, hd2⟩ := h
  have hd31 : d.day ≤ 31 := hd2.trans (daysInMonth_le _ _)
  have hm99 : d.month ≤ 99 := by omega
  have hd99 : d.day ≤ 99 := by omega
  have hyAll := pad4Chars_all_digit (n := d.year) (by omega)
  have hmAll := pad2Chars_all_digit (n := d.month) hm99
  have hdAll := pad2Chars_all_digit (n := d.day) hd99
  have hySep : ∀ c ∈ pad4Chars d.year, c ≠ '-' :=
    fun c hc => ne_dash_of_digit (List.all_eq_true.mp hyAll c hc)
  have hmSep : ∀ c ∈ pad2Chars d.month, c ≠ '-' :=
    fun c hc => ne_dash_of_digit (List.all_eq_true.mp hmAll c hc)
  have hdSep : ∀ c ∈ pad2Chars d.day, c ≠ '-' :=
    fun c hc => ne_dash_of_digit (List.all_eq_true.mp hdAll c hc)
  have split3 : splitOnChar '-' (isoChars d)
      = [pad4Chars d.year, pad2Chars d.month, pad2Chars d.day] := by
    unfold isoChars
    rw [splitOnChar_append _ _ hySep, splitOnChar_append _ _ hmSep,
      splitOnChar_no_sep hdSep]
  have hlist : (Date.isoformat d).toList = isoChars d := rfl
  have e1 : digitsVal (pad4Chars d.year) = d.year := digitsVal_pad4 (by omega)
  have e2 : digitsVal (pad2Chars d.month) = d.month := digitsVal_pad2 hm99
  have e3 : digitsVal (pad2Chars d.day) = d.day := digitsVal_pad2 hd99
  unfold parsePyDate parseDateChars
  rw [hlist, split3]
  simp [pad2Chars_length, pad4Chars_length, e1, e2, e3, hyAll, hmAll, hdAll,
    hy1, hm1, hm2, hd1, hd2]

theorem toList_append_colon (a p : String) :
    (a ++ ":" ++ p).toList = a.toList ++ ':' :: p.toList := by
  cases a with
  | mk la =>
    cases p with
    | mk lp =>
      show (la ++ [':']) ++ lp = la ++ ':' :: lp
      simp

theorem splitFirst_encode {a : String} (p : String) (h : ∀ c ∈ a.toList, c ≠ ':') :
    splitFirst ':' (a ++ ":" ++ p).toList = some (a.toList, p.toList) := by
  rw [toList_append_colon]
  exact splitFirst_append _ _ h

theorem decode_encode {a : String} (p : String) (h : ∀ c ∈ a.toList, c ≠ ':') :
    decodeCallbackData (a ++ ":" ++ p) = some (a, p) := by
  unfold decodeCallbackData
  rw [splitFirst_encode p h]
  rfl

/-- The `day` branch of `callback_handler` on a decodable token,
as a definitional identity. -/
theorem callback_handler_day (e : Engine) (payload : String) (today : Date) :
    callback_handler e ("day" ++ ":" ++ payload) today
      = ⟨true, some (format_day_text (calc_day e (callbackDate payload today)),
          some (build_day_keyboard (callbackDate payload today)))⟩ := rfl

/-- The `week` branch of `callback_handler`. -/
theorem callback_handler_week (e : Engine) (payload : String) (today : Date) :
    callback_handler e ("week" ++ ":" ++ payload) today
      = ⟨true, some (format_week_text (weekDays e (callbackDate payload today)), none)⟩ := rfl

/-- The `crowd` branch of `callback_handler`. -/
theorem callback_handler_crowd (e : Engine) (payload : String) (today : Date) :
    callback_handler e ("crowd" ++ ":" ++ payload) today
      = ⟨true, some (crowdText (callbackDate payload today)
          (e.get_crowd_state (e.mayan_from_gregorian (callbackDate payload today)).tz_number
            (e.mayan_from_gregorian (callbackDate payload today)).tz_name
            (e.get_moon_phase (callbackDate payload today)).phase_code), none)⟩ := rfl

/-- The `mode` branch of `callback_handler`. -/
theorem callback_handler_mode (e : Engine) (payload : String) (today : Date) :
    callback_handler e ("mode" ++ ":" ++ payload) today
      = (let d := callbackDate payload today
         let info := e.mayan_from_gregorian d
         let moon := e.get_moon_phase d
         let cls := e.classify_day info.tz_number info.tz_name moon.phase_code
         let crowd := e.get_crowd_state info.tz_number info.tz_name moon.phase_code
         let bot_mode := e.get_bot_mode cls.trading_signal_label crowd.code
         ⟨true, some (modeText d cls crowd bot_mode, none)⟩) := rfl

/-- An unparseable payload resolves to today on the callback path. -/
theorem callbackDate_of_parse_none {payload : String} (today : Date)
    (h : parsePyDate payload = none) : callbackDate payload today = today := by
  unfold callbackDate
  rw [h]
  rfl

/-- A well-formed ISO payload resolves to its own date. -/
theorem callbackDate_of_iso {d : Date} (today : Date) (h : d.Valid) :
    callbackDate d.isoformat today = d := by
  unfold callbackDate
  rw [parsePyDate_isoformat h]
  rfl

/-! ## Claim theorems -/

/-- C1 counterexample: the calendrically impossible command argument
`"2025-02-30"` does not signal any parse error on the `/day` path; the
handler silently resolves to today and replies with today's computed
profile, so the engine aggregation does run. -/
theorem strict_command_parse_counterexample :
    parse_date_arg ["2025-02-30"] = none
    ∧ day_cmd stubEngine ["2025-02-30"] ⟨2025, 10, 12⟩
        = DayCmdOutcome.reply ⟨2025, 10, 12⟩
            (format_day_text (calc_day stubEngine ⟨2025, 10, 12⟩))
            (build_day_keyboard ⟨2025, 10, 12⟩)
    ∧ day_cmd stubEngine ["2025-02-30"] ⟨2025, 10, 12⟩
        ≠ DayCmdOutcome.parseError "2025-02-30" :=
  ⟨rfl, rfl, by decide⟩

/-- C1 amended: a command argument that does not parse as a strict
`YYYY-MM-DD` date makes `parse_date_arg` return `None`, and the day and
week commands silently fall back to today's date: the profile engine is
run for today, the reply is today's report, no error is signalled and
the offending text is discarded. -/
theorem lenient_command_fallback (e : Engine) (bad : String) (rest : List String)
    (today : Date) (h : parsePyDate bad = none) :
    parse_date_arg (bad :: rest) = none
    ∧ day_cmd e (bad :: rest) today
        = DayCmdOutcome.reply today (format_day_text (calc_day e today))
            (build_day_keyboard today)
    ∧ week_cmd e (bad :: rest) today = format_week_text (weekDays e today) := by
  have hb : parse_date_arg (bad :: rest) = none := h
  refine ⟨hb, ?_, ?_⟩
  · unfold day_cmd
    rw [hb]
    rfl
  · unfold week_cmd
    rw [hb]
    rfl

/-- C1 amended witness at argument `"2025-13-01"` and today
2025-01-02. -/
theorem lenient_command_fallback_witness :
    parsePyDate "2025-13-01" = none
    ∧ (parse_date_arg ["2025-13-01"] = none
       ∧ day_cmd stubEngine ["2025-13-01"] ⟨2025, 1, 2⟩
           = DayCmdOutcome.reply ⟨2025, 1, 2⟩
               (format_day_text (calc_day stubEngine ⟨2025, 1, 2⟩))
               (build_day_keyboard ⟨2025, 1, 2⟩)
       ∧ week_cmd stubEngine ["2025-13-01"] ⟨2025, 1, 2⟩
           = format_week_text (weekDays stubEngine ⟨2025, 1, 2⟩)) :=
  ⟨rfl, lenient_command_fallback stubEngine "2025-13-01" [] ⟨2025, 1, 2⟩ rfl⟩

/-- C2: for every action `a` of the defined action set and every valid
date `d`, decoding the token `"{a}:{d.isoformat()}"` (split at the first
`':'`) yields exactly the pair `(a, d.isoformat())`, the strict parse of
that payload recovers `d` exactly, and the callback branch resolves it
to `d`; while a payload that does not parse as a strict `YYYY-MM-DD`
date is not an error: the handler renders exactly the view it renders
for today. -/
theorem callback_token_roundtrip (e : Engine) (a : String) (d today : Date)
    (payload : String)
    (ha : a ∈ (["day", "week", "crowd", "mode"] : List String))
    (hd : d.Valid) (ht : today.Valid) (hp : parsePyDate payload = none) :
    decodeCallbackData (a ++ ":" ++ d.isoformat) = some (a, d.isoformat)
    ∧ parsePyDate d.isoformat = some d
    ∧ callbackDate d.isoformat today = d
    ∧ callback_handler e (a ++ ":" ++ payload) today
        = callback_handler e (a ++ ":" ++ today.isoformat) today := by
  have h1 : callbackDate payload today = today := callbackDate_of_parse_none today hp
  have h2 : callbackDate today.isoformat today = today := callbackDate_of_iso today ht
  fin_cases ha
  · exact ⟨decode_encode _ (by decide), parsePyDate_isoformat hd,
      callbackDate_of_iso today hd,
      by rw [callback_handler_day, callback_handler_day, h1, h2]⟩
  · exact ⟨decode_encode _ (by decide), parsePyDate_isoformat hd,
      callbackDate_of_iso today hd,
      by rw [callback_handler_week, callback_handler_week, h1, h2]⟩
  · exact ⟨decode_encode _ (by decide), parsePyDate_isoformat hd,
      callbackDate_of_iso today hd,
      by rw [callback_handler_crowd, callback_handler_crowd, h1, h2]⟩
  · exact ⟨decode_encode _ (by decide), parsePyDate_isoformat hd,
      callbackDate_of_iso today hd,
      by rw [callback_handler_mode, callback_handler_mode, h1, h2]⟩

/-- C2 witness at action `day`, date 2025-11-30, today 2025-10-12 and
malformed payload `"not-a-date"`. -/
theorem callback_token_roundtrip_witness :
    ("day" : String) ∈ (["day", "week", "crowd", "mode"] : List String)
    ∧ Date.Valid ⟨2025, 11, 30⟩
    ∧ Date.Valid ⟨2025, 10, 12⟩
    ∧ parsePyDate "not-a-date" = none
    ∧ (decodeCallbackData ("day" ++ ":" ++ Date.isoformat ⟨2025, 11, 30⟩)
          = some ("day", Date.isoformat ⟨2025, 11, 30⟩)
       ∧ parsePyDate (Date.isoformat ⟨2025, 11, 30⟩) = some ⟨2025, 11, 30⟩
       ∧ callbackDate (Date.isoformat ⟨2025, 11, 30⟩) ⟨2025, 10, 12⟩ = ⟨2025, 11, 30⟩
       ∧ callback_handler stubEngine ("day" ++ ":" ++ "not-a-date") ⟨2025, 10, 12⟩
           = callback_handler stubEngine
               ("day" ++ ":" ++ Date.isoformat ⟨2025, 10, 12⟩) ⟨2025, 10, 12⟩) :=
  ⟨by decide, by decide, by decide, by decide,
    callback_token_roundtrip stubEngine "day" ⟨2025, 11, 30⟩ ⟨2025, 10, 12⟩
      "not-a-date" (by decide) (by decide) (by decide) (by decide)⟩

/-- C3: with the engine a record of pure functions, any two calls to
`calc_day` on the same date return field-for-field identical profiles:
the aggregation is deterministic and side-effect-free. -/
theorem calc_day_deterministic (e : Engine) (d : Date) (p q : DayProfile)
    (hp : p = calc_day e d) (hq : q = calc_day e d) :
    p.date = q.date ∧ p.tzolkin = q.tzolkin ∧ p.haab = q.haab ∧ p.moon = q.moon
    ∧ p.day_class = q.day_class ∧ p.deep = q.deep ∧ p.crowd = q.crowd
    ∧ p.bot_mode = q.bot_mode ∧ p.bior = q.bior ∧ p.training = q.training
    ∧ p.schedule = q.schedule ∧ p.nutrition = q.nutrition
    ∧ p.sumerian = q.sumerian := by
  subst hp
  subst hq
  exact ⟨rfl, rfl, rfl, rfl, rfl, rfl, rfl, rfl, rfl, rfl, rfl, rfl, rfl⟩

/-- C3 witness: two calls at 2025-10-12 agree on the date field. -/
theorem calc_day_deterministic_witness :
    calc_day stubEngine ⟨2025, 10, 12⟩ = calc_day stubEngine ⟨2025, 10, 12⟩
    ∧ (calc_day stubEngine ⟨2025, 10, 12⟩).date = (calc_day stubEngine ⟨2025, 10, 12⟩).date :=
  ⟨rfl, (calc_day_deterministic stubEngine ⟨2025, 10, 12⟩
    (calc_day stubEngine ⟨2025, 10, 12⟩) (calc_day stubEngine ⟨2025, 10, 12⟩) rfl rfl).1⟩

/-- C4: the week view is composed of the profiles of exactly the seven
consecutive dates `d, d+1, ..., d+6` in that order; formatting them
yields the title, a header spanning the first and last profiles' dates
(`d` to `d+6`), and one three-line summary entry per profile in the same
order. -/
theorem week_view_composition (e : Engine) (d : Date) :
    weekDays e d = [calc_day e d, calc_day e (addDays d 1), calc_day e (addDays d 2),
        calc_day e (addDays d 3), calc_day e (addDays d 4), calc_day e (addDays d 5),
        calc_day e (addDays d 6)]
    ∧ (weekDays e d).length = 7
    ∧ format_week_lines (weekDays e d)
        = weekTitle :: weekHeader (calc_day e d) (calc_day e (addDays d 6)) :: "" ::
            (weekDays e d).flatMap weekEntry
    ∧ weekHeader (calc_day e d) (calc_day e (addDays d 6))
        = "c " ++ fmtDMY d ++ " по " ++ fmtDMY (addDays d 6) := by
  have hd0 : (calc_day e d).date = d := by simp [calc_day]
  have hd6 : (calc_day e (addDays d 6)).date = addDays d 6 := by simp [calc_day]
  have h : weekDays e d = [calc_day e d, calc_day e (addDays d 1), calc_day e (addDays d 2),
      calc_day e (addDays d 3), calc_day e (addDays d 4), calc_day e (addDays d 5),
      calc_day e (addDays d 6)] := by
    simp [weekDays, List.range_succ, addDays]
  refine ⟨h, ?_, ?_, ?_⟩
  · rw [h]
    rfl
  · rw [h]
    rfl
  · unfold weekHeader
    rw [hd0, hd6]

/-- C5 counterexample: with the Scenario-D stub engine that raises only
on the biorhythm call, the aggregation's failure value is the bare cause
`"bio fail"`, identical for two different dates — so the failure does
not carry the date, contradicting `AggregationError{date, cause}`. -/
theorem aggregation_error_carries_no_date :
    calc_day_exc bioFailEngine ⟨2025, 1, 1⟩ = Except.error "bio fail"
    ∧ calc_day_exc bioFailEngine ⟨2026, 2, 2⟩ = Except.error "bio fail" :=
  ⟨rfl, rfl⟩

/-- C5 amended: if any single sub-calculation fails, the aggregation
fails atomically — it returns no profile at all, propagating the raw
engine error rather than a wrapper carrying the date — and conversely it
only fails when some sub-calculation fails. -/
theorem aggregation_atomic (fe : FEngine) (d : Date) :
    (calc_day_exc fe d).isOk = false ↔ anySubcalcFails fe d = true := by
  unfold calc_day_exc anySubcalcFails
  cases h1 : fe.mayan_from_gregorian d with
  | error c => simp_all [Except.isOk, Except.toBool]
  | ok info =>
  cases h2 : fe.get_moon_phase d with
  | error c => simp_all [Except.isOk, Except.toBool]
  | ok moon =>
  cases h3 : fe.classify_day info.tz_number info.tz_name moon.phase_code with
  | error c => simp_all [Except.isOk, Except.toBool]
  | ok cls =>
  cases h4 : fe.get_deep_profile info.tz_number info.tz_name moon.phase_code with
  | error c => simp_all [Except.isOk, Except.toBool]
  | ok deep =>
  cases h5 : fe.get_crowd_state info.tz_number info.tz_name moon.phase_code with
  | error c => simp_all [Except.isOk, Except.toBool]
  | ok crowd_state =>
  cases h6 : fe.get_bot_mode cls.trading_signal_label crowd_state.code with
  | error c => simp_all [Except.isOk, Except.toBool]
  | ok bot_mode =>
  cases h7 : fe.get_biorhythms BIRTH_DATE d with
  | error c => simp_all [Except.isOk, Except.toBool]
  | ok bior =>
  cases h8 : fe.get_training_recommendation bior cls moon.phase_code with
  | error c => simp_all [Except.isOk, Except.toBool]
  | ok training =>
  cases h9 : fe.get_daily_schedule BIRTH_DATE d cls moon.phase_code bior with
  | error c => simp_all [Except.isOk, Except.toBool]
  | ok schedule =>
  cases h10 : fe.get_nutrition_profile bior cls moon.phase_code with
  | error c => simp_all [Except.isOk, Except.toBool]
  | ok nutrition =>
  cases h11 : fe.get_sumerian_profile d with
  | error c => simp_all [Except.isOk, Except.toBool]
  | ok sumer => simp_all [Except.isOk, Except.toBool]

/-- C5 amended witness: the biorhythm-failing stub at 2025-01-01. -/
theorem aggregation_atomic_witness :
    anySubcalcFails bioFailEngine ⟨2025, 1, 1⟩ = true
    ∧ (calc_day_exc bioFailEngine ⟨2025, 1, 1⟩).isOk = false :=
  ⟨rfl, (aggregation_atomic bioFailEngine ⟨2025, 1, 1⟩).mpr rfl⟩

/-- C6: the day report is the fixed ordered block sequence — head
(title, calendrical line, lunar line), classification block (day class
with its derived trading signal), crowd block, bot-mode block, biorhythm
summary — with blank separators between blocks; the spec-modelled `Full`
detail appends the training block after one more separator; and the
rendering is a pure function of the profile, hence identical across
invocations. -/
theorem day_report_block_order (p : DayProfile) :
    format_day_lines p
      = dayHeadBlock p ++ [""] ++ classificationBlock p ++ [""] ++ crowdBlock p
          ++ [""] ++ botModeBlock p ++ [""] ++ biorhythmBlock p
    ∧ format_day_full_lines p = format_day_lines p ++ [""] ++ trainingBlock p
    ∧ format_day_text p = joinLines (format_day_lines p) :=
  ⟨rfl, rfl, rfl⟩

/-- C7: a callback whose action token decodes to something outside the
defined action set is acknowledged (`query.answer()` has already run)
but renders nothing: no message edit is issued. -/
theorem unknown_action_noop (e : Engine) (data : String) (today : Date)
    (a p : String) (hsplit : decodeCallbackData data = some (a, p))
    (ha : a ∉ (["day", "week", "crowd", "mode"] : List String)) :
    callback_handler e data today = ⟨true, none⟩ := by
  have hsplit' : (splitFirst ':' data.toList).map
      (fun q => ((⟨q.1⟩ : String), (⟨q.2⟩ : String))) = some (a, p) := hsplit
  obtain ⟨⟨ac, pc⟩, hq, hg⟩ := Option.map_eq_some'.mp hsplit'
  have hac : (⟨ac⟩ : String) = a := congrArg Prod.fst hg
  subst hac
  simp only [List.mem_cons, List.not_mem_nil, or_false] at ha
  push_neg at ha
  obtain ⟨h1, h2, h3, h4⟩ := ha
  unfold callback_handler
  rw [hq]
  simp [h1, h2, h3, h4]

/-- C7 witness at the unknown action `foo`. -/
theorem unknown_action_noop_witness :
    decodeCallbackData "foo:2025-01-01" = some ("foo", "2025-01-01")
    ∧ ("foo" : String) ∉ (["day", "week", "crowd", "mode"] : List String)
    ∧ callback_handler stubEngine "foo:2025-01-01" ⟨2025, 10, 12⟩ = ⟨true, none⟩ :=
  ⟨by decide, by decide,
    unknown_action_noop stubEngine "foo:2025-01-01" ⟨2025, 10, 12⟩ "foo" "2025-01-01"
      (by decide) (by decide)⟩

/-- C8 counterexample: with an empty `BOT_TOKEN`, `main` prints the
descriptive message and returns without building the application — but
the plain `return` ends the script normally, so the exit status is 0,
not non-zero as claimed. -/
theorem missing_token_zero_exit_counterexample :
    main_startup ""
      = ⟨some "❌ Не задан BOT_TOKEN. Укажи токен бота в переменной окружения BOT_TOKEN.",
          false, 0⟩
    ∧ (main_startup "").exitCode = 0 :=
  ⟨rfl, rfl⟩

/-- C8 amended: a missing or blank token makes startup print the
descriptive message and refuse to build the application or serve any
traffic, and the process terminates immediately — but with exit status 0
(a normal return), not a non-zero outcome. -/
theorem missing_token_refuses_startup (t : String) (h : pyStrip t = "") :
    main_startup t
      = ⟨some "❌ Не задан BOT_TOKEN. Укажи токен бота в переменной окружения BOT_TOKEN.",
          false, 0⟩ := by
  unfold main_startup
  rw [if_pos (Or.inr h)]

/-- C8 amended witness at the blank token `" "`. -/
theorem missing_token_refuses_startup_witness :
    pyStrip " " = ""
    ∧ main_startup " "
        = ⟨some "❌ Не задан BOT_TOKEN. Укажи токен бота в переменной окружения BOT_TOKEN.",
            false, 0⟩ :=
  ⟨rfl, missing_token_refuses_startup " " rfl⟩

/-- Filtering `range n` for a single value below `n` leaves exactly that
value. -/
theorem range_filter_eq_singleton {t n : Nat} (h : t < n) :
    (List.range n).filter (fun x => x = t) = [t] := by
  induction n with
  | zero => omega
  | succ n ih =>
    rw [List.range_succ, List.filter_append]
    by_cases htn : t < n
    · rw [ih htn]
      have hne : ¬(n = t) := by omega
      simp [hne]
    · have ht : t = n := by omega
      subst ht
      have hnil : (List.range t).filter (fun x => x = t) = [] := by
        rw [List.filter_eq_nil_iff]
        intro x hx
        have := List.mem_range.mp hx
        simp
        omega
      rw [hnil]
      simp

/-- C9: on any calendar day, with a destination configured and a valid
fire minute, the scheduler fires exactly once: it dispatches exactly one
message, addressed to the configured chat identifier, containing the
Full-detail document of today's aggregated profile, and performs no
second dispatch that day. -/
theorem scheduler_exactly_one_dispatch (e : Engine) (chatId : String)
    (fireMinute : Nat) (today : Date) (hc : chatId ≠ "") (hm : fireMinute < 1440) :
    scheduler_day_dispatches e chatId fireMinute today
      = [⟨chatId, format_day_full_text (calc_day e today)⟩]
    ∧ (scheduler_day_dispatches e chatId fireMinute today).length = 1 := by
  have h : scheduler_day_dispatches e chatId fireMinute today
      = [⟨chatId, format_day_full_text (calc_day e today)⟩] := by
    unfold scheduler_day_dispatches
    rw [if_neg hc, range_filter_eq_singleton hm]
    rfl
  exact ⟨h, by rw [h]; rfl⟩

/-- C9 witness at the destination `"635079110"` and minute 480. -/
theorem scheduler_exactly_one_dispatch_witness :
    ("635079110" : String) ≠ ""
    ∧ (480 : Nat) < 1440
    ∧ (scheduler_day_dispatches stubEngine "635079110" 480 ⟨2025, 10, 12⟩
        = [⟨"635079110", format_day_full_text (calc_day stubEngine ⟨2025, 10, 12⟩)⟩]
       ∧ (scheduler_day_dispatches stubEngine "635079110" 480 ⟨2025, 10, 12⟩).length = 1) :=
  ⟨by decide, by decide,
    scheduler_exactly_one_dispatch stubEngine "635079110" 480 ⟨2025, 10, 12⟩
      (by decide) (by decide)⟩

/-- C10: the week formatter is total in the list length, not only at 7:
the empty list yields only the title line (no header, no failure), and
any non-empty list yields the title, a header built from the first and
last profiles' dates, a blank, and one three-line summary entry per
profile in list order. -/
theorem format_week_total (days : List DayProfile) :
    (days = [] → format_week_lines days = [weekTitle])
    ∧ (days ≠ [] → format_week_lines days
        = weekTitle :: weekHeader days.head! days.getLast! :: "" ::
            days.flatMap weekEntry) := by
  constructor
  · intro h
    subst h
    rfl
  · intro h
    cases days with
    | nil => exact absurd rfl h
    | cons q qs => rfl

/-- C10 witness: the empty list and a singleton list. -/
theorem format_week_total_witness :
    format_week_lines [] = [weekTitle]
    ∧ format_week_lines [calc_day stubEngine ⟨2025, 3, 1⟩]
        = weekTitle :: weekHeader ([calc_day stubEngine ⟨2025, 3, 1⟩].head!)
            ([calc_day stubEngine ⟨2025, 3, 1⟩].getLast!) :: "" ::
            [calc_day stubEngine ⟨2025, 3, 1⟩].flatMap weekEntry :=
  ⟨(format_week_total []).1 rfl,
   (format_week_total [calc_day stubEngine ⟨2025, 3, 1⟩]).2 (List.cons_ne_nil _ _)⟩

end Muluk
